import Mathlib

/-!
# Verification of the OpenClaw Bootstrapping Benchmark core

A shallow embedding of the benchmark's core modules:

* `benchmark/verify.py`    — post-bootstrap verification engine
* `benchmark/bootstrap.py` — conversation driver
* `benchmark/runner.py`    — orchestration controller (retry and
  skip-completed policies)
* `benchmark/report.py`    — run aggregation

Python strings are modelled as Lean `String`s and their character lists;
dicts with insertion order as association lists; `float` durations and
scores as `ℚ`.  Each definition mirrors the Python function of the same
name; the regular expressions of `verify.py` are translated into
deterministic character-list scanners that reproduce the semantics of
Python's `re` module (leftmost match, greedy/lazy quantifiers, the
relevant backtracking cases) on the character classes involved.
-/

namespace OpenClawBench

set_option maxRecDepth 16384

/-- Python's whitespace class `\s` (ASCII part) and the set stripped by
`str.strip()`: space, tab, newline, carriage return, vertical tab, form feed. -/
def pySpace (c : Char) : Bool :=
  c = ' ' || c = '\t' || c = '\n' || c = '\r' || c = '\x0b' || c = '\x0c'

/-- Python's `\w` word-character class for the ASCII inputs involved. -/
def isWordChar (c : Char) : Bool :=
  c.isAlphanum || c = '_'

/-- Python `str.strip()` on a character list. -/
def pyStripList (cs : List Char) : List Char :=
  ((cs.dropWhile pySpace).reverse.dropWhile pySpace).reverse

/-- Python `str.strip()`. -/
def pyStrip (s : String) : String :=
  String.mk (pyStripList s.data)

/-- Python `str.lower()` (character-wise; ASCII letters). -/
def pyToLower (s : String) : String :=
  String.mk (s.data.map Char.toLower)

/-- Characters treated as line boundaries by Python `str.splitlines()`. -/
def isLineBreak (c : Char) : Bool :=
  c = '\n' || c = '\r' || c = '\x0b' || c = '\x0c' ||
  c = '\x1c' || c = '\x1d' || c = '\x1e' || c = '\x85' ||
  c = Char.ofNat 0x2028 || c = Char.ofNat 0x2029

/-- Worker for `pySplitlines`: `acc` holds the current line reversed;
`afterCR` records that the previous character was a carriage return, so
that a directly following line feed is part of the same `\r\n`
boundary. -/
def splitlinesGo : List Char → List Char → Bool → List String
  | [], acc, _ => if acc.isEmpty then [] else [String.mk acc.reverse]
  | c :: rest, acc, afterCR =>
    if afterCR && c = '\n' then splitlinesGo rest acc false
    else if c = '\r' then String.mk acc.reverse :: splitlinesGo rest [] true
    else if isLineBreak c then String.mk acc.reverse :: splitlinesGo rest [] false
    else splitlinesGo rest (c :: acc) false

theorem splitlinesGo_newline (r : List Char) (acc : List Char) :
    splitlinesGo ('\n' :: r) acc false = String.mk acc.reverse :: splitlinesGo r [] false :=
  rfl

theorem splitlinesGo_plain (c : Char) (r acc : List Char) (h : isLineBreak c = false) :
    splitlinesGo (c :: r) acc false = splitlinesGo r (c :: acc) false := by
  have hcr : ¬ c = '\r' := by
    intro e; rw [e] at h; exact absurd h (by decide)
  show (if false && c = '\n' then _ else if c = '\r' then _
        else if isLineBreak c then _ else _) = _
  rw [if_neg (by simp), if_neg hcr, h]
  simp

/-- Python `str.splitlines()`: split at line boundaries (with `\r\n`
counting as a single boundary), no trailing empty line. -/
def pySplitlines (s : String) : List String :=
  splitlinesGo s.data [] false

/-- Tests whether `pre` is a prefix of `cs` (case-sensitive). -/
def listStartsWith : List Char → List Char → Bool
  | [], _ => true
  | p :: ps, cs =>
    match cs with
    | [] => false
    | c :: cs2 => p = c && listStartsWith ps cs2

/-- Python's substring test `needle in hay`. -/
def listContainsSub (needle : List Char) : List Char → Bool
  | [] => listStartsWith needle []
  | c :: rest => listStartsWith needle (c :: rest) || listContainsSub needle rest

/-- Python `needle in hay` on strings. -/
def pyIn (needle hay : String) : Bool :=
  listContainsSub needle.data hay.data

/-- Python `str.startswith` on strings. -/
def pyStartsWith (s pre : String) : Bool :=
  listStartsWith pre.data s.data

/-- From `verify.py`: `_strip_md_markers` — strip leading/trailing markdown
bold/italic markers and whitespace (`re.sub(r"^[*_\s]+|[*_\s]+$", "", v)`). -/
def mdMarkerChar (c : Char) : Bool :=
  c = '*' || c = '_' || pySpace c

def strip_md_markers (s : String) : String :=
  String.mk (((s.data.dropWhile mdMarkerChar).reverse.dropWhile mdMarkerChar).reverse)

/-- Python `value.rstrip(".")`. -/
def rstripDots (s : String) : String :=
  String.mk ((s.data.reverse.dropWhile (· = '.')).reverse)

/-- From `verify.py`: `IDENTITY_PLACEHOLDERS` (already lower-case in the source). -/
def IDENTITY_PLACEHOLDERS : List String :=
  [ "pick something you like",
    "ai? robot? familiar? ghost in the machine? something weirder?",
    "how do you come across? sharp? warm? chaotic? calm?",
    "your signature — pick one that feels right",
    "your signature - pick one that feels right",
    "workspace-relative path, http(s) url, or data uri" ]

/-- From `verify.py`: `USER_PLACEHOLDERS`. -/
def USER_PLACEHOLDERS : List String :=
  ["", "(optional)"]

/-- From `verify.py`: `_is_placeholder` — normalise (strip markers, lower,
strip) and test membership in the placeholder sets. -/
def is_placeholder (value : String) : Bool :=
  let normalised := pyStrip (pyToLower (strip_md_markers value))
  normalised = "" || IDENTITY_PLACEHOLDERS.contains normalised ||
    USER_PLACEHOLDERS.contains normalised

/-- Match `needle` (given lower-case) case-insensitively at the head of
`hay`; return the remainder on success. -/
def matchCI : List Char → List Char → Option (List Char)
  | [], hay => some hay
  | _, [] => none
  | n :: ns, h :: hs => if h.toLower = n.toLower then matchCI ns hs else none

/-- Consume up to two leading `*` (greedy `\*{0,2}`). -/
def dropStars2 : List Char → List Char
  | '*' :: '*' :: rest => rest
  | '*' :: rest => rest
  | cs => cs

/-- Strategy 1 of `verify.py`: `re.match(r"^[-*]?\s*\*{0,2}" + field +
r"\*{0,2}\s*[:=]\s*(.+)$", stripped, re.IGNORECASE)`, returning the
captured group.  The character classes at each quantifier boundary are
disjoint, so the greedy scan below coincides with the regex; when the
text after the colon is non-empty but all whitespace, backtracking of
`\s*` makes `(.+)` capture the final character. -/
def reStructMatch (fieldName line : String) : Option String :=
  let l0 := line.data
  let l1 := match l0 with
    | c :: rest => if c = '-' || c = '*' then rest else l0
    | [] => l0
  let l2 := dropStars2 (l1.dropWhile pySpace)
  match matchCI fieldName.data l2 with
  | none => none
  | some l3 =>
    let l4 := (dropStars2 l3).dropWhile pySpace
    match l4 with
    | c :: rest =>
      if c = ':' || c = '=' then
        if rest.isEmpty then none
        else
          let v := rest.dropWhile pySpace
          some (String.mk (if v.isEmpty then [rest.getLastD ' '] else v))
      else none
    | [] => none

/-- Terminator characters of `(?:\.\s|\.|;|\n|$)` in strategy 2. -/
def looseStops : List Char := ['.', ';', '\n']

/-- The `\s*(.+?)(?:\.\s|\.|;|\n|$)` tail of strategy 2: greedy
whitespace, then a lazy non-empty group up to the first stop character
or the end.  When the remaining text is non-empty but all whitespace,
the regex backtracks `\s*` and captures the last character that is not
a newline (failing if every remaining character is a newline). -/
def looseAfterKey (rest : List Char) : Option String :=
  let v := rest.dropWhile pySpace
  match v with
  | c :: tail => some (String.mk (c :: tail.takeWhile (fun d => !looseStops.contains d)))
  | [] =>
    match rest.reverse.dropWhile (· = '\n') with
    | c :: _ => some (String.mk [c])
    | [] => none

/-- One attempt of strategy 2's regex
`\b<field>\b\s*(?:is|:)\s*(.+?)(?:\.\s|\.|;|\n|$)` at the current
position (`prev` is the preceding character, for the word boundary). -/
def attemptLoose (key : List Char) (prev : Option Char) (cs : List Char) : Option String :=
  if (match prev with | some p => isWordChar p | none => false) then none
  else match matchCI key cs with
    | none => none
    | some rest =>
      if (match rest with | c :: _ => isWordChar c | [] => false) then none
      else
        let r1 := rest.dropWhile pySpace
        match matchCI ['i', 's'] r1 with
        | some r2 => looseAfterKey r2
        | none =>
          match r1 with
          | ':' :: r2 => looseAfterKey r2
          | _ => none

/-- Mirrors `re.search`: try `attempt` at every position, left to right. -/
def reSearch (attempt : Option Char → List Char → Option String) :
    Option Char → List Char → Option String
  | prev, cs =>
    match attempt prev cs with
    | some v => some v
    | none =>
      match cs with
      | [] => none
      | c :: rest => reSearch attempt (some c) rest

/-- Lazy group `(\w...*?)` with charset `okC` and terminator characters
`stopC` (the `$` terminator is the end of the text): the first character
must be a word character; the group then extends lazily until a stop
character or the end; a character that is neither extends nor stops the
group makes the whole attempt fail. -/
def lazyGroupExtend (okC stopC : Char → Bool) : List Char → Option (List Char)
  | [] => some []
  | c :: rest =>
    if stopC c then some []
    else if okC c then (lazyGroupExtend okC stopC rest).map (c :: ·)
    else none

def lazyCharsetGroup (okC stopC : Char → Bool) : List Char → Option String
  | [] => none
  | c :: rest =>
    if isWordChar c then (lazyGroupExtend okC stopC rest).map (fun g => String.mk (c :: g))
    else none

/-- Charset `[\w\s-]` of strategy-3 patterns 1 and 2. -/
def nameGroupChar (c : Char) : Bool := isWordChar c || pySpace c || c = '-'

/-- Terminators `(?:\.|,|;|\n|$)` of strategy-3 patterns 1 and 2. -/
def nameStops (c : Char) : Bool := c = '.' || c = ',' || c = ';' || c = '\n'

/-- Matches `\s+` followed by the strategy-3 name group: require at least one
whitespace character, skip the rest, then match the group. -/
def wsThenGroup (okC stopC : Char → Bool) : List Char → Option String
  | c :: rest =>
    if pySpace c then lazyCharsetGroup okC stopC (rest.dropWhile pySpace) else none
  | [] => none

/-- Strategy-3 pattern 1: `\bname\b\s+is\s+(\w[\w\s-]*?)(?:\.|,|;|\n|$)`
(the content is already lower-cased; the boundary after `name` is
subsumed by `\s+`). -/
def attemptNameIs (prev : Option Char) (cs : List Char) : Option String :=
  if (match prev with | some p => isWordChar p | none => false) then none
  else match matchCI "name".data cs with
    | none => none
    | some rest =>
      match rest with
      | c :: r =>
        if pySpace c then
          match matchCI "is".data (r.dropWhile pySpace) with
          | some r2 => wsThenGroup nameGroupChar nameStops r2
          | none => none
        else none
      | [] => none

/-- Strategy-3 pattern 2: `\bcall(?:ed)?\s+(\w[\w\s-]*?)(?:\.|,|;|\n|$)`;
the optional `ed` is tried greedily, with the regex falling back to not
consuming it when the rest of the pattern then fails. -/
def attemptCall (prev : Option Char) (cs : List Char) : Option String :=
  if (match prev with | some p => isWordChar p | none => false) then none
  else match matchCI "call".data cs with
    | none => none
    | some rest =>
      match matchCI "ed".data rest with
      | some r2 =>
        (wsThenGroup nameGroupChar nameStops r2).orElse
          (fun _ => wsThenGroup nameGroupChar nameStops rest)
      | none => wsThenGroup nameGroupChar nameStops rest

/-- The apostrophe character, for the `i'?m` pattern. -/
def aposChar : Char := Char.ofNat 39

/-- Terminators `(?:\.|,|;|\s|$)` of strategy-3 pattern 3. -/
def imStops (c : Char) : Bool := c = '.' || c = ',' || c = ';' || pySpace c

/-- Charset `[\w-]` of strategy-3 pattern 3. -/
def imGroupChar (c : Char) : Bool := isWordChar c || c = '-'

/-- Strategy-3 pattern 3: `\bi'?m\s+(\w[\w-]*?)(?:\.|,|;|\s|$)`. -/
def attemptIm (prev : Option Char) (cs : List Char) : Option String :=
  if (match prev with | some p => isWordChar p | none => false) then none
  else match cs with
    | c :: rest =>
      if c.toLower = 'i' then
        let rest2 := match rest with
          | a :: r => if a = aposChar then r else rest
          | [] => rest
        match rest2 with
        | m :: r3 =>
          if m.toLower = 'm' then wsThenGroup imGroupChar imStops r3 else none
        | [] => none
      else none
    | [] => none

/-- Characters of the timezone group `[\w/+-]`. -/
def tzChar (c : Char) : Bool := isWordChar c || c = '/' || c = '+' || c = '-'

/-- Strategy 4: `\btime\s*zone\b\s*(?:is|:)\s*([\w/+-]+)` with
`re.IGNORECASE`. -/
def attemptTimezone (prev : Option Char) (cs : List Char) : Option String :=
  if (match prev with | some p => isWordChar p | none => false) then none
  else match matchCI "time".data cs with
    | none => none
    | some r1 =>
      match matchCI "zone".data (r1.dropWhile pySpace) with
      | none => none
      | some r2 =>
        if (match r2 with | c :: _ => isWordChar c | [] => false) then none
        else
          let r3 := r2.dropWhile pySpace
          let afterKw : Option (List Char) :=
            match matchCI "is".data r3 with
            | some r4 => some r4
            | none => match r3 with
              | ':' :: r4 => some r4
              | _ => none
          match afterKw with
          | none => none
          | some r4 =>
            match (r4.dropWhile pySpace).takeWhile tzChar with
            | [] => none
            | g => some (String.mk g)

/-- Python `str.title()`: upper-case a letter that does not follow a
letter, lower-case one that does. -/
def pyTitleGo : Bool → List Char → List Char
  | _, [] => []
  | prevCased, c :: rest =>
    if c.isAlpha then
      (if prevCased then c.toLower else c.toUpper) :: pyTitleGo true rest
    else c :: pyTitleGo false rest

def pyTitle (s : String) : String :=
  String.mk (pyTitleGo false s.data)

/-- The value clean-up applied in strategies 1 and 2:
`_strip_md_markers(g).strip().rstrip(".")`. -/
def cleanVal (g : String) : String :=
  rstripDots (pyStrip (strip_md_markers g))

/-- The acceptance step `if val and not _is_placeholder(val): return True, val` of
strategies 1 and 2. -/
def acceptVal (g : String) : Option String :=
  let v := cleanVal g
  if !v.isEmpty && !is_placeholder v then some v else none

/-- Strategy 1 of `_field_present`: scan the stripped lines for a
structured `key: value` match with an acceptable value. -/
def strat1 (fieldName content : String) : Option String :=
  (pySplitlines content).findSome?
    (fun line => (reStructMatch fieldName (pyStrip line)).bind acceptVal)

/-- Strategy 2 of `_field_present`: `re.search` for the loose
`field (is|:) value` pattern, accepting the first match only if its
cleaned value is non-empty and not a placeholder. -/
def strat2 (fieldName content : String) : Option String :=
  (reSearch (attemptLoose fieldName.data) none content.data).bind acceptVal

/-- Strategy 3 of `_field_present` (field `"name"` only): the three
prose patterns over the lower-cased content, returning
`m.group(1).strip().title()`. -/
def strat3 (content : String) : Option String :=
  let lower := pyToLower content
  let tryPat (attempt : Option Char → List Char → Option String) : Option String :=
    (reSearch attempt none lower.data).bind
      (fun g => let s := pyStrip g; if s.isEmpty then none else some (pyTitle s))
  match tryPat attemptNameIs with
  | some v => some v
  | none =>
    match tryPat attemptCall with
    | some v => some v
    | none => tryPat attemptIm

/-- Strategy 4 of `_field_present` (field `"timezone"` only). -/
def strat4 (content : String) : Option String :=
  (reSearch attemptTimezone none content.data).bind
    (fun g => let s := pyStrip g; if s.isEmpty then none else some s)

/-- From `verify.py`: `_field_present(content, field) -> (found, value)`. -/
def field_present (content fieldName : String) : Bool × String :=
  match strat1 fieldName content with
  | some v => (true, v)
  | none =>
    match strat2 fieldName content with
    | some v => (true, v)
    | none =>
      if fieldName = "name" then
        match strat3 content with
        | some v => (true, v)
        | none => (false, "")
      else if fieldName = "timezone" then
        match strat4 content with
        | some v => (true, v)
        | none => (false, "")
      else (false, "")

/-- From `verify.py`: `FileCheck` — result of checking a single workspace file. -/
structure FileCheck where
  filename : String
  «exists» : Bool := false
  passed : Bool := false
  details : String := ""
  content : String := ""
  deriving Repr, DecidableEq

/-- From `verify.py`: `VerificationResult` (score as an exact rational). -/
structure VerificationResult where
  model_name : String
  checks : List FileCheck := []
  all_passed : Bool := false
  score : ℚ := 0
  deriving Repr, DecidableEq

/-- The on-disk state of the four workspace files read by the checks:
`none` models an absent file, `some c` a file with content `c`. -/
structure Workspace where
  bootstrapFile : Option String := none
  identityFile : Option String := none
  userFile : Option String := none
  soulFile : Option String := none

/-- From `config.py`: `BootstrapFields` with its defaults. -/
structure BootstrapFields where
  user_name : String := "Alex"
  user_timezone : String := "Europe/Rome"
  user_preferences : String := "concise answers, no filler, direct and helpful"
  agent_name : String := "Coral"
  agent_creature : String := "space lobster"
  agent_vibe : String := "warm and casual"
  agent_emoji : String := String.singleton (Char.ofNat 0x1F99E)

/-- From `config.py`: `BootstrapFields.identity_expected` (ordered dict). -/
def BootstrapFields.identity_expected (bf : BootstrapFields) : List (String × String) :=
  [("name", bf.agent_name), ("creature", bf.agent_creature),
   ("vibe", bf.agent_vibe), ("emoji", bf.agent_emoji)]

/-- From `config.py`: `BootstrapFields.user_expected` (ordered dict). -/
def BootstrapFields.user_expected (bf : BootstrapFields) : List (String × String) :=
  [("name", bf.user_name), ("timezone", bf.user_timezone)]

/-- From `verify.py`: `check_bootstrap_deleted` (a read error on an existing
file leaves `content` empty; an existing file is modelled as readable). -/
def check_bootstrap_deleted (file : Option String) : FileCheck :=
  let ex := file.isSome
  { filename := "BOOTSTRAP.md", «exists» := ex, passed := !ex,
    details := if !ex then "Deleted ✓" else "Still exists — bootstrap did not complete",
    content := file.getD "" }

/-- The per-field loop shared by `check_identity` and `check_user`:
literal substring first, then `_field_present`, with `check_user`'s
`"what to call them"` alias for the `name` field when `useAlias` is set.
Returns the `found` pairs (in expected order) and the missing names. -/
def fieldScan (content : String) (useAlias : Bool) :
    List (String × String) → List (String × String) × List String
  | [] => ([], [])
  | (k, v) :: rest =>
    let (f, m) := fieldScan content useAlias rest
    if pyIn (pyToLower v) (pyToLower content) then ((k, v) :: f, m)
    else
      let pr := field_present content k
      let pr := if useAlias && !pr.1 && k = "name" then
          field_present content "what to call them"
        else pr
      if pr.1 then ((k, pr.2) :: f, m) else (f, k :: m)

/-- Python `", ".join`. -/
def joinComma (xs : List String) : String := String.intercalate ", " xs

/-- From `verify.py`: `check_identity(workspace, expected)`.  `expected = none`
models passing no expectation dict, and an empty dict is falsy in
Python, so both take the content-length fallback. -/
def check_identity (file : Option String) (expected : Option (List (String × String))) :
    FileCheck :=
  match file with
  | none => { filename := "IDENTITY.md", details := "File missing" }
  | some content =>
    let base : FileCheck := { filename := "IDENTITY.md", «exists» := true, content := content }
    if expected.getD [] = [] then
      if (pyStrip content).length > 100 then
        { base with
          passed := true,
          details := "Has content (" ++ toString content.length ++ " chars)" }
      else
        { base with details := "File appears empty or template-only" }
    else
      let (found, missing) := fieldScan content false (expected.getD [])
      if missing.isEmpty then
        { base with
          passed := true,
          details := "All fields set: " ++
            joinComma (found.map (fun kv => kv.1 ++ "=" ++ kv.2)) }
      else
        { base with details := "Missing fields: " ++ joinComma missing }

/-- From `verify.py`: `check_user(workspace, expected)` (threshold 50 and the
`name ↔ "what to call them"` alias). -/
def check_user (file : Option String) (expected : Option (List (String × String))) :
    FileCheck :=
  match file with
  | none => { filename := "USER.md", details := "File missing" }
  | some content =>
    let base : FileCheck := { filename := "USER.md", «exists» := true, content := content }
    if expected.getD [] = [] then
      if (pyStrip content).length > 50 then
        { base with
          passed := true,
          details := "Has content (" ++ toString content.length ++ " chars)" }
      else
        { base with details := "File appears empty or template-only" }
    else
      let (found, missing) := fieldScan content true (expected.getD [])
      if missing.isEmpty then
        { base with
          passed := true,
          details := "Key fields populated: " ++
            joinComma (found.map (fun kv => kv.1 ++ "=" ++ kv.2)) }
      else
        { base with details := "Missing fields: " ++ joinComma missing }

/-- From `verify.py`: the `template_markers` of `check_soul`. -/
def template_markers : List String :=
  ["Fill this in during your first conversation",
   "You\x27re not a chatbot. You\x27re becoming someone."]

/-- From `verify.py`: `check_soul(workspace)`. -/
def check_soul (file : Option String) : FileCheck :=
  match file with
  | none => { filename := "SOUL.md", details := "File missing" }
  | some content =>
    let base : FileCheck := { filename := "SOUL.md", «exists» := true, content := content }
    let has_template_only := template_markers.all (fun m => pyIn m content)
    let is_long_enough := (pyStrip content).length > 200
    if has_template_only && !is_long_enough then
      { base with details := "Still contains only template text" }
    else
      { base with
          passed := true,
          details := "Modified (" ++ toString content.length ++ " chars)" }

/-- From `verify.py`: `verify_bootstrap(workspace, model_name, bootstrap_fields)`. -/
def verify_bootstrap (ws : Workspace) (model_name : String)
    (bootstrap_fields : Option BootstrapFields) : VerificationResult :=
  let identity_expected := bootstrap_fields.map (·.identity_expected)
  let user_expected := bootstrap_fields.map (·.user_expected)
  let checks := [check_bootstrap_deleted ws.bootstrapFile,
                 check_identity ws.identityFile identity_expected,
                 check_user ws.userFile user_expected,
                 check_soul ws.soulFile]
  let passed := (checks.filter (·.passed)).length
  let total := checks.length
  { model_name := model_name, checks := checks,
    all_passed := passed == total,
    score := if total > 0 then (passed : ℚ) / (total : ℚ) else 0 }

/-! ## `bootstrap.py` — conversation driver -/

/-- From `bootstrap.py`: `BootstrapTurn`. -/
structure BootstrapTurn where
  prompt : String
  response : String := ""
  duration_s : ℚ := 0
  success : Bool := false
  error : String := ""
  deriving Repr, DecidableEq

/-- From `bootstrap.py`: `BootstrapResult`. -/
structure BootstrapResult where
  model_name : String
  turns : List BootstrapTurn := []
  total_duration_s : ℚ := 0
  bootstrap_completed : Bool := false
  error : String := ""
  deriving Repr, DecidableEq

/-- What the external `openclaw agent` subprocess call does on one turn:
it completes with an exit code, captured stdout/stderr and a measured
duration, or it raises `subprocess.TimeoutExpired`, or it raises some
other exception rendered as `msg`. -/
inductive TransportEv where
  | completed (exitCode : Int) (stdout stderr : String) (duration : ℚ)
  | timedOut
  | raised (msg : String)
  deriving Repr

/-- From `bootstrap.py`: the return value of `send_agent_message` when the
subprocess completes: `([ERROR] stderr.strip(), duration)` on a non-zero
exit code, `(stdout.strip(), duration)` otherwise. -/
def send_agent_message (exitCode : Int) (stdout stderr : String) (duration : ℚ) :
    String × ℚ :=
  let response := pyStrip stdout
  if exitCode ≠ 0 then ("[ERROR] " ++ pyStrip stderr, duration)
  else (response, duration)

/-- One loop body of `run_bootstrap_conversation` after the deadline
check: the `try/except` around `send_agent_message`. -/
def processTurn (prompt : String) (turn_timeout : ℤ) : TransportEv → BootstrapTurn
  | .completed ec out err dur =>
    let (response, d) := send_agent_message ec out err dur
    let success := !(pyStartsWith response "[ERROR]")
    { prompt := prompt, response := response, duration_s := d, success := success,
      error := if success then "" else response }
  | .timedOut =>
    { prompt := prompt, error := "Turn timed out after " ++ toString turn_timeout ++ "s" }
  | .raised msg => { prompt := prompt, error := msg }

/-- The prompt loop of `run_bootstrap_conversation`.  `clock i` is the
wall-clock time elapsed since `t0` when the deadline check before turn
`i` (0-based) runs; `transport i` is what the subprocess does on turn
`i`.  Returns the recorded turns and the `result.error` field (set only
when the global deadline is hit).  `int(remaining)` truncates toward
zero, which is the floor since `remaining > 0` on that branch. -/
def driveTurns (bootstrap_timeout agent_turn_timeout : ℤ) (clock : ℕ → ℚ)
    (transport : ℕ → TransportEv) : ℕ → List String → List BootstrapTurn × String
  | _, [] => ([], "")
  | i, prompt :: rest =>
    let remaining : ℚ := (bootstrap_timeout : ℚ) - clock i
    if remaining ≤ 0 then
      ([{ prompt := prompt, error := "Global bootstrap timeout exceeded" }],
       "Global bootstrap timeout exceeded")
    else
      let turn_timeout : ℤ := min agent_turn_timeout (Rat.floor remaining)
      let (turns, err) :=
        driveTurns bootstrap_timeout agent_turn_timeout clock transport (i + 1) rest
      (processTurn prompt turn_timeout (transport i) :: turns, err)

/-- From `bootstrap.py`: `run_bootstrap_conversation`.  `total_duration` is
the wall-clock time elapsed when the loop finishes;
`triggerFileExists` is whether `BOOTSTRAP.md` still exists in the
workspace afterwards. -/
def run_bootstrap_conversation (model_name : String)
    (bootstrap_timeout agent_turn_timeout : ℤ) (prompts : List String)
    (clock : ℕ → ℚ) (transport : ℕ → TransportEv) (total_duration : ℚ)
    (triggerFileExists : Bool) : BootstrapResult :=
  let (turns, err) := driveTurns bootstrap_timeout agent_turn_timeout clock transport 0 prompts
  { model_name := model_name, turns := turns, total_duration_s := total_duration,
    bootstrap_completed := !triggerFileExists, error := err }

/-! ## `runner.py` — retry classification and skip-completed policy -/

/-- From `runner.py` line 379: `infra_failure = bool(br.error) or any(not
t.success for t in br.turns)`. -/
def infra_failure (br : BootstrapResult) : Bool :=
  !(br.error == "") || br.turns.any (fun t => !t.success)

/-- The retry loop of `run_benchmark` (lines 359–397): `attempts k` is
the `(BootstrapResult, VerificationResult)` pair that the `k`-th call
of `run_single_model` (1-based) would produce.  `fuel` counts the
attempts still allowed after the current one.  Returns the kept result
and the index of the attempt that produced it. -/
def retryGo (attempts : ℕ → BootstrapResult × VerificationResult) :
    ℕ → ℕ → (BootstrapResult × VerificationResult) × ℕ
  | fuel, idx =>
    match fuel with
    | 0 => (attempts idx, idx)
    | fuel' + 1 =>
      let r := attempts idx
      if infra_failure r.1 then retryGo attempts fuel' (idx + 1) else (r, idx)

/-- From `runner.py`: one run with up to `cfg.retries` retries — attempts
`1 .. retries + 1`, stopping at the first attempt that is not an
infrastructure failure, keeping the last attempt's result otherwise. -/
def runWithRetries (retries : ℕ)
    (attempts : ℕ → BootstrapResult × VerificationResult) :
    (BootstrapResult × VerificationResult) × ℕ :=
  retryGo attempts retries 1

/-- From `report.py`: `AggregatedResult` (the `_raw_runs_json` carry-over
field is not modelled). -/
structure AggregatedResult where
  model_name : String
  runs : List (BootstrapResult × VerificationResult) := []
  prompt_variant : String := "default"
  prompt_variant_prompts : List String := []
  num_runs : ℕ := 0
  avg_score : ℚ := 0
  avg_duration_s : ℚ := 0
  bootstrap_rate : ℚ := 0
  perfect_rate : ℚ := 0
  bootstrap_md_rate : ℚ := 0
  identity_rate : ℚ := 0
  user_rate : ℚ := 0
  soul_rate : ℚ := 0
  deriving Repr

/-- The fields of one `models[...]` entry of `benchmark_latest.json`
used by the skip-completed policy (`runner.py` lines 300–330). -/
structure PrevEntry where
  model : String
  prompt_variant : String
  prompt_variant_prompts : List String := []
  num_runs : ℕ := 0
  avg_score : ℚ := 0
  avg_duration_s : ℚ := 0
  bootstrap_rate : ℚ := 0
  perfect_rate : ℚ := 0
  bootstrap_md_rate : ℚ := 0
  identity_rate : ℚ := 0
  user_rate : ℚ := 0
  soul_rate : ℚ := 0

/-- From `runner.py` lines 315–330: the `AggregatedResult` carried over from
a previous report entry when a pair is skipped. -/
def carryOverResult (e : PrevEntry) : AggregatedResult :=
  { model_name := e.model, runs := [], prompt_variant := e.prompt_variant,
    prompt_variant_prompts := e.prompt_variant_prompts, num_runs := e.num_runs,
    avg_score := e.avg_score, avg_duration_s := e.avg_duration_s,
    bootstrap_rate := e.bootstrap_rate, perfect_rate := e.perfect_rate,
    bootstrap_md_rate := e.bootstrap_md_rate, identity_rate := e.identity_rate,
    user_rate := e.user_rate, soul_rate := e.soul_rate }

/-- Python `repr` of a string, for version strings containing no quote,
backslash or non-printable character (the only use in `runner.py`). -/
def pyReprStr (s : String) : String := "\x27" ++ s ++ "\x27"

/-- From `runner.py` line 337: the reason string logged for a tool-version
mismatch. -/
def versionReason (prev_version cur_version : String) : String :=
  "OpenClaw version changed: " ++ pyReprStr prev_version ++ " → " ++
    pyReprStr cur_version

/-- From `runner.py` lines 335–342: the mismatch reasons logged when a prior
entry exists but is not reused (version reason first, then prompts). -/
def mismatchReasons (prev_version cur_version : String)
    (prev_prompts cur_prompts : List String) : List String :=
  (if prev_version = cur_version then [] else [versionReason prev_version cur_version]) ++
  (if prev_prompts = cur_prompts then [] else ["prompt text changed"])

/-- Outcome of the skip-completed check for a pair with a prior entry:
either the pair is skipped and the prior aggregate carried over, or it
is re-run with the given logged reasons. -/
inductive SkipOutcome where
  | skipped (ag : AggregatedResult)
  | rerun (reasons : List String)
  deriving Repr

/-- From `runner.py` lines 300–347: the skip-completed decision for one
`(model, variant)` pair whose key is present in the previous report.
`prev_version` is the report-level `openclaw_version` of that report,
`cur_version` the currently detected version, `cur_prompts` the current
variant's prompts. -/
def skip_completed_check (e : PrevEntry) (prev_version cur_version : String)
    (cur_prompts : List String) : SkipOutcome :=
  let version_match := prev_version == cur_version
  let prompts_match := e.prompt_variant_prompts == cur_prompts
  if version_match && prompts_match then
    .skipped (carryOverResult e)
  else
    .rerun (mismatchReasons prev_version cur_version e.prompt_variant_prompts cur_prompts)

/-- From `runner.py` line 160: `run_single_model` invokes the verifier as
`verify_bootstrap(env.workspace_dir, model.model_id)`, passing no
`bootstrap_fields`. -/
def runner_verify (ws : Workspace) (model_id : String) : VerificationResult :=
  verify_bootstrap ws model_id none

/-! ## `report.py` — aggregation -/

/-- From `report.py`: the `_check_rate` closure of `aggregate_runs`: the
number of `(run, check)` pairs whose check has the given filename and
passed, divided by the number of runs. -/
def check_rate (runs : List (BootstrapResult × VerificationResult))
    (filename : String) : ℚ :=
  (((runs.map
      (fun r => (r.2.checks.filter (fun c => c.filename = filename && c.passed)).length)).sum
    : ℕ) : ℚ) / (runs.length : ℚ)

/-- From `report.py`: `aggregate_runs`.  `prompt_variant_prompts = none`
models the Python default `None` (`prompt_variant_prompts or []`). -/
def aggregate_runs (model_name : String)
    (runs : List (BootstrapResult × VerificationResult))
    (prompt_variant : String) (prompt_variant_prompts : Option (List String)) :
    AggregatedResult :=
  let n := runs.length
  if n = 0 then
    { model_name := model_name, runs := [], prompt_variant := prompt_variant,
      prompt_variant_prompts := prompt_variant_prompts.getD [] }
  else
    { model_name := model_name, runs := runs, prompt_variant := prompt_variant,
      prompt_variant_prompts := prompt_variant_prompts.getD [],
      num_runs := n,
      avg_score := ((runs.map (fun r => r.2.score)).sum) / (n : ℚ),
      avg_duration_s := ((runs.map (fun r => r.1.total_duration_s)).sum) / (n : ℚ),
      bootstrap_rate := ((runs.filter (fun r => r.1.bootstrap_completed)).length : ℚ) / (n : ℚ),
      perfect_rate := ((runs.filter (fun r => r.2.all_passed)).length : ℚ) / (n : ℚ),
      bootstrap_md_rate := check_rate runs "BOOTSTRAP.md",
      identity_rate := check_rate runs "IDENTITY.md",
      user_rate := check_rate runs "USER.md",
      soul_rate := check_rate runs "SOUL.md" }

/-! ## Scenario fixtures -/

/-- The spec's persona-file scenario: both template sentinels plus
padding, 150 characters in total (43 + 1 + 46 + 60). -/
def soulShortFixture : String :=
  "Fill this in during your first conversation\nYou\x27re not a chatbot. You\x27re becoming someone."
    ++ String.mk (List.replicate 60 'x')

/-- The same persona file extended to 250 characters. -/
def soulLongFixture : String :=
  soulShortFixture ++ String.mk (List.replicate 100 'x')

/-- The spec's well-formed identity file. -/
def identityFileFixture : String :=
  "- **Name:** Coral\n- **Creature:** space lobster\n- **Vibe:** warm and casual\n- **Emoji:** "
    ++ String.singleton (Char.ofNat 0x1F99E)

/-- The expected identity fields of the default configuration. -/
def identityExpectedFixture : List (String × String) :=
  ({} : BootstrapFields).identity_expected

/-! ## Helper lemmas -/

theorem filter_length_eq_iff {α} (p : α → Bool) :
    ∀ l : List α, ((l.filter p).length = l.length ↔ ∀ a ∈ l, p a = true) := by
  intro l
  induction l with
  | nil => simp
  | cons a l ih =>
    cases h : p a with
    | true => simp [List.filter_cons, h, ih]
    | false =>
      have hle := List.length_filter_le p l
      have hfc : (a :: l).filter p = l.filter p := by simp [List.filter_cons, h]
      rw [hfc, List.length_cons]
      constructor
      · intro hl; omega
      · intro hall
        have h2 := hall a (by simp)
        simp [h] at h2

/-! ## C9 — shape and invariants of `VerificationResult` -/

/-- C9: every `VerificationResult` produced by `verify_bootstrap`
contains exactly the four `FileCheck`s, in the fixed order
BOOTSTRAP / IDENTITY / USER / SOUL; its score equals
(passed checks)/(total checks) and lies in `[0, 1]`; and its
`all_passed` flag holds exactly when all four checks passed. -/
theorem C9_verification_result_invariants (ws : Workspace) (model : String)
    (bf : Option BootstrapFields) :
    (verify_bootstrap ws model bf).checks.length = 4 ∧
    (verify_bootstrap ws model bf).checks =
      [check_bootstrap_deleted ws.bootstrapFile,
       check_identity ws.identityFile (bf.map (·.identity_expected)),
       check_user ws.userFile (bf.map (·.user_expected)),
       check_soul ws.soulFile] ∧
    (verify_bootstrap ws model bf).score =
      (((verify_bootstrap ws model bf).checks.filter (·.passed)).length : ℚ) /
        (((verify_bootstrap ws model bf).checks.length : ℚ)) ∧
    0 ≤ (verify_bootstrap ws model bf).score ∧
    (verify_bootstrap ws model bf).score ≤ 1 ∧
    (verify_bootstrap ws model bf).all_passed =
      (verify_bootstrap ws model bf).checks.all (·.passed) := by
  constructor
  · rfl
  constructor
  · rfl
  have hlen4 : (verify_bootstrap ws model bf).checks.length = 4 := rfl
  have hkle : ((verify_bootstrap ws model bf).checks.filter (·.passed)).length ≤ 4 := by
    rw [← hlen4]; exact List.length_filter_le _ _
  have hscore : (verify_bootstrap ws model bf).score =
      (((verify_bootstrap ws model bf).checks.filter (·.passed)).length : ℚ) / 4 := by
    simp only [verify_bootstrap]
    norm_num
  constructor
  · rw [hscore, hlen4]; norm_num
  constructor
  · rw [hscore]; positivity
  constructor
  · rw [hscore]
    rw [div_le_one (by norm_num)]
    exact_mod_cast hkle
  · show (decide _ : Bool) = _
    rcases h : (verify_bootstrap ws model bf).checks.all (·.passed) with _ | _
    · simp only [decide_eq_false_iff_not]
      intro hlen
      rw [filter_length_eq_iff] at hlen
      rw [List.all_eq_false] at h
      obtain ⟨c, hc, hcp⟩ := h
      exact hcp (hlen c hc)
    · simp only [decide_eq_true_iff]
      rw [filter_length_eq_iff]
      intro a ha
      exact (List.all_eq_true.mp h) a ha

/-! ## C10 — verification as invoked by the controller -/

/-- C10: `run_single_model` passes no expectation dicts to
`verify_bootstrap`, so no field matching is performed: the identity
check passes exactly when the file's stripped content exceeds 100
characters and the user check exactly when it exceeds 50 (a missing
file fails either check). -/
theorem C10_runner_verify_fallback (ws : Workspace) (model : String) (c : String) :
    (runner_verify ws model).checks.get? 1 = some (check_identity ws.identityFile none) ∧
    (runner_verify ws model).checks.get? 2 = some (check_user ws.userFile none) ∧
    (check_identity (some c) none).passed = decide (100 < (pyStrip c).length) ∧
    (check_user (some c) none).passed = decide (50 < (pyStrip c).length) ∧
    (check_identity none none).passed = false ∧
    (check_user none none).passed = false := by
  refine ⟨rfl, rfl, ?_, ?_, rfl, rfl⟩
  · by_cases h : 100 < (pyStrip c).length <;> simp [check_identity, h]
  · by_cases h : 50 < (pyStrip c).length <;> simp [check_user, h]

/-! ## C6 — the template-modified (SOUL) check -/

/-- C6: `check_soul` passes exactly when the file does not contain all
template sentinel phrases or its (stripped) content is longer than 200
characters; in particular the 150-character file containing both
sentinels fails and its 250-character extension passes. -/
theorem C6_soul_template_check (c : String) :
    (check_soul (some c)).passed =
      (!(template_markers.all (fun m => pyIn m c)) || decide (200 < (pyStrip c).length)) ∧
    soulShortFixture.length = 150 ∧
    template_markers.all (fun m => pyIn m soulShortFixture) = true ∧
    (check_soul (some soulShortFixture)).passed = false ∧
    (check_soul (some soulShortFixture)).details = "Still contains only template text" ∧
    soulLongFixture.length = 250 ∧
    template_markers.all (fun m => pyIn m soulLongFixture) = true ∧
    (check_soul (some soulLongFixture)).passed = true := by
  refine ⟨?_, rfl, rfl, rfl, rfl, rfl, rfl, rfl⟩
  rcases hall : template_markers.all (fun m => pyIn m c) with _ | _
  · simp [check_soul, hall]
  · by_cases hlen : 200 < (pyStrip c).length <;>
      simp [check_soul, hall, hlen]

/-! ## C2 — field acceptance in the identity and user checks -/

theorem acceptVal_sound {g v : String} (h : acceptVal g = some v) :
    v.isEmpty = false ∧ is_placeholder v = false := by
  by_cases hc : (!(cleanVal g).isEmpty && !is_placeholder (cleanVal g)) = true
  · have he : acceptVal g = some (cleanVal g) := by
      show (if (!(cleanVal g).isEmpty && !is_placeholder (cleanVal g)) = true
            then some (cleanVal g) else none) = some (cleanVal g)
      rw [if_pos hc]
    rw [he] at h
    cases h
    exact ⟨by simpa using (Bool.and_eq_true .. |>.mp hc).1,
           by simpa using (Bool.and_eq_true .. |>.mp hc).2⟩
  · have he : acceptVal g = none := by
      show (if (!(cleanVal g).isEmpty && !is_placeholder (cleanVal g)) = true
            then some (cleanVal g) else none) = none
      rw [if_neg hc]
    rw [he] at h
    cases h

theorem findSome?_exists {α β} (f : α → Option β) :
    ∀ (l : List α) (b : β), l.findSome? f = some b → ∃ a ∈ l, f a = some b := by
  intro l
  induction l with
  | nil => intro b h; simp [List.findSome?_nil] at h
  | cons a l ih =>
    intro b h
    rw [List.findSome?_cons] at h
    cases hfa : f a with
    | some c =>
      rw [hfa] at h
      exact ⟨a, by simp, by rw [hfa]; exact h⟩
    | none =>
      rw [hfa] at h
      obtain ⟨x, hx, hfx⟩ := ih b h
      exact ⟨x, by simp [hx], hfx⟩

/-- C2, corrected: any value accepted by the structured-line tier or the
loose `key: value` tier is non-empty and not a placeholder after
normalisation, but a field also counts as found through the literal
substring tier and the name/timezone prose tiers, which perform no
placeholder filtering (see the counterexample).  The two spec scenarios
hold: the identity file whose Name bullet carries only the placeholder
text on the following line fails with detail "Missing fields: name",
while a file containing the literal expected values passes. -/
theorem C2_matcher_placeholder_rejection :
    (∀ f c v, strat1 f c = some v → v.isEmpty = false ∧ is_placeholder v = false) ∧
    (∀ f c v, strat2 f c = some v → v.isEmpty = false ∧ is_placeholder v = false) ∧
    check_identity (some "- **Name:**\n  _(pick something you like)_")
        (some [("name", "Coral")]) =
      { filename := "IDENTITY.md", «exists» := true, passed := false,
        details := "Missing fields: name",
        content := "- **Name:**\n  _(pick something you like)_" } ∧
    (check_identity (some identityFileFixture) (some identityExpectedFixture)).passed
      = true := by
  refine ⟨?_, ?_, rfl, rfl⟩
  · intro f c v h
    obtain ⟨line, _, hline⟩ := findSome?_exists _ _ _ h
    obtain ⟨g, _, hacc⟩ := Option.bind_eq_some.mp hline
    exact acceptVal_sound hacc
  · intro f c v h
    obtain ⟨g, _, hacc⟩ := Option.bind_eq_some.mp (by simpa [strat2] using h)
    exact acceptVal_sound hacc

/-- C2 witness: the structured tier accepts `Coral` from a plain bullet
line, and the accepted value is indeed non-empty and not a placeholder. -/
theorem C2_matcher_placeholder_rejection_witness :
    strat1 "name" "- Name: Coral" = some "Coral" ∧
    ("Coral".isEmpty = false ∧ is_placeholder "Coral" = false) :=
  ⟨rfl, C2_matcher_placeholder_rejection.1 "name" "- Name: Coral" "Coral" rfl⟩

/-- C2 counterexample: with expected pair `name ↦ Coral` and file content
`name is pick something you like`, the name-specific prose tier extracts
`Pick Something You Like` — a member of the placeholder set after
normalisation — and the identity check still counts the field as found
and passes, refuting the claim that a field counts as found only if the
extracted value is not a placeholder. -/
theorem C2_placeholder_accepted_counterexample :
    field_present "name is pick something you like" "name" =
      (true, "Pick Something You Like") ∧
    is_placeholder "Pick Something You Like" = true ∧
    (check_identity (some "name is pick something you like")
        (some [("name", "Coral")])).passed = true ∧
    (check_identity (some "name is pick something you like")
        (some [("name", "Coral")])).details =
      "All fields set: name=Pick Something You Like" :=
  ⟨rfl, rfl, rfl, rfl⟩

/-! ## C5 — no next-line continuation in the structured tier -/

theorem string_data_append (s t : String) : (s ++ t).data = s.data ++ t.data := by
  cases s; cases t; rfl

theorem splitlinesGo_append (r : List Char) :
    ∀ (cs acc : List Char), (∀ c ∈ cs, isLineBreak c = false) →
      splitlinesGo (cs ++ '\n' :: r) acc false =
        String.mk (acc.reverse ++ cs) :: splitlinesGo r [] false := by
  intro cs
  induction cs with
  | nil =>
    intro acc h
    simpa using splitlinesGo_newline r acc
  | cons c cs ih =>
    intro acc h
    rw [List.cons_append, splitlinesGo_plain c _ acc (h c (by simp)),
        ih (c :: acc) (fun d hd => h d (by simp [hd]))]
    simp

/-- A line without line-break characters followed by `"\n"` is split off
as the first line. -/
theorem pySplitlines_cons_line (l r : String)
    (hl : ∀ c ∈ l.data, isLineBreak c = false) :
    pySplitlines (l ++ "\n" ++ r) = l :: pySplitlines r := by
  show splitlinesGo (l ++ "\n" ++ r).data [] false = _
  rw [string_data_append, string_data_append]
  have : ("\n" : String).data = ['\n'] := rfl
  rw [this, List.append_assoc, List.singleton_append,
      splitlinesGo_append r.data l.data [] hl]
  rfl

/-- C5, corrected: when the structured-line tier matches a line whose
extracted value is empty or a placeholder (so that `acceptVal` rejects
it), the matcher does not inspect the next line for a continuation
value: the rejected line contributes nothing, and scanning proceeds
with the remaining lines exactly as if the rejected line were absent. -/
theorem C5_rejected_line_skipped (f l r : String)
    (hl : ∀ c ∈ l.data, isLineBreak c = false)
    (hrej : (reStructMatch f (pyStrip l)).bind acceptVal = none) :
    strat1 f (l ++ "\n" ++ r) = strat1 f r := by
  unfold strat1
  rw [pySplitlines_cons_line l r hl, List.findSome?_cons, hrej]

/-- C5 witness: the bullet line whose value is the `(optional)`
placeholder is skipped outright by the structured tier. -/
theorem C5_rejected_line_skipped_witness :
    (∀ c ∈ "- **Name:** (optional)".data, isLineBreak c = false) ∧
    (reStructMatch "name" (pyStrip "- **Name:** (optional)")).bind acceptVal = none ∧
    strat1 "name" ("- **Name:** (optional)" ++ "\n" ++ "Coral") = strat1 "name" "Coral" :=
  ⟨by decide, rfl,
   C5_rejected_line_skipped "name" "- **Name:** (optional)" "Coral" (by decide) rfl⟩

/-- C5 counterexample: the structured tier matches the bullet line
`- **Name:** (optional)` and extracts the placeholder `(optional)`; the
next line holds the continuation value `Coral`, which the tier would
accept; yet the field is reported missing — the next line is never
inspected for a continuation value. -/
theorem C5_no_continuation_counterexample :
    reStructMatch "name" (pyStrip "- **Name:** (optional)") = some "** (optional)" ∧
    is_placeholder (cleanVal "** (optional)") = true ∧
    acceptVal "Coral" = some "Coral" ∧
    field_present "- **Name:** (optional)\nCoral" "name" = (false, "") :=
  ⟨rfl, rfl, rfl, rfl⟩

/-! ## C1 — retry classification -/

theorem retryGo_all_fail (attempts : ℕ → BootstrapResult × VerificationResult) :
    ∀ fuel idx,
      (∀ j, idx ≤ j → j ≤ idx + fuel → infra_failure (attempts j).1 = true) →
      retryGo attempts fuel idx = (attempts (idx + fuel), idx + fuel) := by
  intro fuel
  induction fuel with
  | zero => intro idx _; simp [retryGo]
  | succ n ih =>
    intro idx h
    have h1 : infra_failure (attempts idx).1 = true := h idx le_rfl (by omega)
    have harith : idx + 1 + n = idx + (n + 1) := by omega
    simp only [retryGo, h1, if_true]
    rw [ih (idx + 1) (fun j hj1 hj2 => h j (by omega) (by omega)), harith]

theorem retryGo_first_success (attempts : ℕ → BootstrapResult × VerificationResult) :
    ∀ k fuel idx, k ≤ fuel →
      (∀ j, idx ≤ j → j < idx + k → infra_failure (attempts j).1 = true) →
      infra_failure (attempts (idx + k)).1 = false →
      retryGo attempts fuel idx = (attempts (idx + k), idx + k) := by
  intro k
  induction k with
  | zero =>
    intro fuel idx _ _ hok
    rw [Nat.add_zero] at hok
    cases fuel with
    | zero => simp [retryGo]
    | succ n => simp [retryGo, hok]
  | succ m ih =>
    intro fuel idx hle hfail hok
    cases fuel with
    | zero => omega
    | succ n =>
      have h1 : infra_failure (attempts idx).1 = true := hfail idx le_rfl (by omega)
      have harith : idx + 1 + m = idx + (m + 1) := by omega
      simp only [retryGo, h1, if_true]
      rw [ih n (idx + 1) (by omega)
            (fun j hj1 hj2 => hfail j (by omega) (by omega))
            (by rw [harith]; exact hok),
          harith]

/-- C1: a trial is classified as an infrastructure failure exactly when
its `BootstrapResult` carries a top-level error or some turn has
`success = false`; a trial whose first attempt is not an infrastructure
failure is accepted immediately (the verification result, in particular
the score, plays no part in the classification); if an attempt `k + 1`
(`k ≤ retries`) is the first non-failing one, its result is kept after
`k` retries; and when all `retries + 1` attempts fail, the last
attempt's result is kept. -/
theorem C1_retry_classification :
    (∀ br, infra_failure br = true ↔
      (¬ br.error = "" ∨ ∃ t ∈ br.turns, t.success = false)) ∧
    (∀ br (vr vr' : VerificationResult) retries attempts,
      attempts 1 = (br, vr) → infra_failure br = false →
      runWithRetries retries attempts = ((br, vr), 1) ∧ infra_failure (br, vr').1 = infra_failure (br, vr).1) ∧
    (∀ retries attempts k, k ≤ retries →
      (∀ j, 1 ≤ j → j < 1 + k → infra_failure (attempts j).1 = true) →
      infra_failure (attempts (1 + k)).1 = false →
      runWithRetries retries attempts = (attempts (1 + k), 1 + k)) ∧
    (∀ retries attempts,
      (∀ j, 1 ≤ j → j ≤ retries + 1 → infra_failure (attempts j).1 = true) →
      runWithRetries retries attempts = (attempts (retries + 1), retries + 1)) := by
  refine ⟨?_, ?_, ?_, ?_⟩
  · intro br
    simp [infra_failure, List.any_eq_true]
  · intro br vr vr' retries attempts h1 h2
    refine ⟨?_, rfl⟩
    have := retryGo_first_success attempts 0 retries 1 (Nat.zero_le _)
      (fun j hj1 hj2 => absurd (by omega : j < 1) (by omega))
      (by rw [Nat.add_zero, h1]; exact h2)
    rw [runWithRetries, this, Nat.add_zero, h1]
  · intro retries attempts k hk hfail hok
    exact retryGo_first_success attempts k retries 1 hk hfail hok
  · intro retries attempts h
    have := retryGo_all_fail attempts retries 1
      (fun j hj1 hj2 => h j hj1 (by omega))
    rw [runWithRetries, this, Nat.add_comm]

/-- A successful single-turn conversation result and a zero-score
verification result, for the C1 witness. -/
def c1CleanBr : BootstrapResult :=
  { model_name := "m", turns := [{ prompt := "p", success := true }] }

def c1ZeroVr : VerificationResult := { model_name := "m", score := 0 }

/-- C1 witness: a clean first attempt (no error, the single turn
succeeded) is accepted immediately, even with a zero verification
score. -/
theorem C1_retry_classification_witness :
    infra_failure c1CleanBr = false ∧
    runWithRetries 3 (fun _ => (c1CleanBr, c1ZeroVr)) = ((c1CleanBr, c1ZeroVr), 1) :=
  ⟨rfl,
   (C1_retry_classification.2.1 c1CleanBr c1ZeroVr c1ZeroVr 3
      (fun _ => (c1CleanBr, c1ZeroVr)) rfl rfl).1⟩

/-! ## C3 — skip-completed policy -/

/-- C3: for a pair with a prior report entry, execution is skipped and
the prior aggregate carried over exactly when both the recorded tool
version equals the detected one and the stored prompts equal the
current variant's prompts verbatim; any mismatch (even one character in
one prompt) re-runs the pair with the specific reasons logged. -/
theorem C3_skip_completed_policy :
    (∀ (e : PrevEntry) pv cv cps,
      skip_completed_check e pv cv cps = .skipped (carryOverResult e) ↔
        (pv = cv ∧ e.prompt_variant_prompts = cps)) ∧
    (∀ (e : PrevEntry) pv cv cps, ¬(pv = cv ∧ e.prompt_variant_prompts = cps) →
      skip_completed_check e pv cv cps =
        .rerun (mismatchReasons pv cv e.prompt_variant_prompts cps)) ∧
    (∀ pv cv pps cps, ¬ pv = cv → ¬ pps = cps →
      mismatchReasons pv cv pps cps = [versionReason pv cv, "prompt text changed"]) ∧
    (∀ pv cv pps cps, ¬ pv = cv → pps = cps →
      mismatchReasons pv cv pps cps = [versionReason pv cv]) ∧
    (∀ pv cv pps cps, pv = cv → ¬ pps = cps →
      mismatchReasons pv cv pps cps = ["prompt text changed"]) ∧
    skip_completed_check
        { model := "m", prompt_variant := "v", prompt_variant_prompts := ["Hello"] }
        "1.0" "1.0" ["Hellp"] = .rerun ["prompt text changed"] := by
  refine ⟨?_, ?_, ?_, ?_, ?_, rfl⟩
  · intro e pv cv cps
    constructor
    · intro h
      by_cases h1 : pv = cv
      · by_cases h2 : e.prompt_variant_prompts = cps
        · exact ⟨h1, h2⟩
        · simp [skip_completed_check, h1, h2] at h
      · simp [skip_completed_check, h1] at h
    · rintro ⟨h1, h2⟩
      simp [skip_completed_check, h1, h2]
  · intro e pv cv cps h
    by_cases h1 : pv = cv
    · have h2 : ¬ e.prompt_variant_prompts = cps := fun h2 => h ⟨h1, h2⟩
      simp [skip_completed_check, h1, h2]
    · simp [skip_completed_check, h1]
  · intro pv cv pps cps h1 h2; simp [mismatchReasons, h1, h2]
  · intro pv cv pps cps h1 h2; simp [mismatchReasons, h1, h2]
  · intro pv cv pps cps h1 h2; simp [mismatchReasons, h1, h2]

/-- C3 witness: an unchanged version and unchanged prompts are skipped
with the prior aggregate reused; the changed-prompt case re-runs. -/
theorem C3_skip_completed_policy_witness :
    skip_completed_check
        { model := "m", prompt_variant := "v", prompt_variant_prompts := ["Hello"] }
        "1.0" "1.0" ["Hello"] =
      .skipped (carryOverResult
        { model := "m", prompt_variant := "v", prompt_variant_prompts := ["Hello"] }) ∧
    mismatchReasons "1.0" "2.0" ["Hello"] ["Hello"] = [versionReason "1.0" "2.0"] :=
  ⟨(C3_skip_completed_policy.1
      { model := "m", prompt_variant := "v", prompt_variant_prompts := ["Hello"] }
      "1.0" "1.0" ["Hello"]).mpr ⟨rfl, rfl⟩,
   C3_skip_completed_policy.2.2.2.1 "1.0" "2.0" ["Hello"] ["Hello"] (by decide) rfl⟩

/-! ## C7 — per-turn success flag and continuation -/

theorem listStartsWith_of_append (a : List Char) :
    ∀ b c, listStartsWith a b = true → listStartsWith a (b ++ c) = true := by
  induction a with
  | nil => intro b c _; rfl
  | cons p ps ih =>
    intro b c h
    cases b with
    | nil => cases h
    | cons q qs =>
      rw [List.cons_append]
      simp only [listStartsWith, Bool.and_eq_true] at h ⊢
      exact ⟨h.1, ih qs c h.2⟩

/-- An error payload produced by `send_agent_message` is tagged with the
`[ERROR]` marker. -/
theorem errorResponse_startsWith (s : String) :
    pyStartsWith ("[ERROR] " ++ s) "[ERROR]" = true := by
  unfold pyStartsWith
  rw [string_data_append]
  exact listStartsWith_of_append _ _ _ (by decide)

/-- A single step of the prompt loop when the global deadline has not
been hit: the turn is processed with timeout
`min(agent_turn_timeout, int(remaining))` and the driver continues with
the remaining prompts. -/
theorem driveTurns_cons_pos (bt att : ℤ) (clock : ℕ → ℚ)
    (transport : ℕ → TransportEv) (i : ℕ) (p : String) (rest : List String)
    (h : 0 < (bt : ℚ) - clock i) :
    driveTurns bt att clock transport i (p :: rest) =
      (processTurn p (min att (Rat.floor ((bt : ℚ) - clock i))) (transport i) ::
        (driveTurns bt att clock transport (i + 1) rest).1,
       (driveTurns bt att clock transport (i + 1) rest).2) := by
  show (let remaining : ℚ := (bt : ℚ) - clock i
        if remaining ≤ 0 then
          ([{ prompt := p, error := "Global bootstrap timeout exceeded" }],
           "Global bootstrap timeout exceeded")
        else
          let turn_timeout : ℤ := min att (Rat.floor remaining)
          let (turns, err) := driveTurns bt att clock transport (i + 1) rest
          (processTurn p turn_timeout (transport i) :: turns, err)) = _
  rw [if_neg (not_le.mpr h)]

/-- A single step of the prompt loop at the deadline: a synthetic failed
turn is recorded, the top-level error set, and no further prompts are
issued. -/
theorem driveTurns_cons_deadline (bt att : ℤ) (clock : ℕ → ℚ)
    (transport : ℕ → TransportEv) (i : ℕ) (p : String) (rest : List String)
    (h : (bt : ℚ) - clock i ≤ 0) :
    driveTurns bt att clock transport i (p :: rest) =
      ([{ prompt := p, error := "Global bootstrap timeout exceeded" }],
       "Global bootstrap timeout exceeded") := by
  show (let remaining : ℚ := (bt : ℚ) - clock i
        if remaining ≤ 0 then
          ([{ prompt := p, error := "Global bootstrap timeout exceeded" }],
           "Global bootstrap timeout exceeded")
        else
          let turn_timeout : ℤ := min att (Rat.floor remaining)
          let (turns, err) := driveTurns bt att clock transport (i + 1) rest
          (processTurn p turn_timeout (transport i) :: turns, err)) = _
  rw [if_pos h]

/-- C7: a completed turn's success flag is true exactly when the
subprocess exited with code 0 and the returned text is not tagged as an
`[ERROR]` payload; a timed-out or raising turn is recorded as a failed
turn with its error captured; and the driver always continues with the
remaining prompts after a non-deadline turn, whatever its outcome. -/
theorem C7_turn_success_and_continuation (p : String) (tt : ℤ) (ec : Int)
    (out err : String) (d : ℚ) (msg : String) :
    ((processTurn p tt (.completed ec out err d)).success = true ↔
      (ec = 0 ∧ pyStartsWith (send_agent_message ec out err d).1 "[ERROR]" = false)) ∧
    (processTurn p tt (.completed ec out err d)).error =
      (if (processTurn p tt (.completed ec out err d)).success then ""
       else (send_agent_message ec out err d).1) ∧
    (processTurn p tt .timedOut).success = false ∧
    (processTurn p tt .timedOut).error =
      "Turn timed out after " ++ toString tt ++ "s" ∧
    (processTurn p tt (.raised msg)).success = false ∧
    (processTurn p tt (.raised msg)).error = msg ∧
    (∀ (bt att : ℤ) (clock : ℕ → ℚ) (transport : ℕ → TransportEv) (i : ℕ)
        (rest : List String), 0 < (bt : ℚ) - clock i →
      driveTurns bt att clock transport i (p :: rest) =
        (processTurn p (min att (Rat.floor ((bt : ℚ) - clock i))) (transport i) ::
          (driveTurns bt att clock transport (i + 1) rest).1,
         (driveTurns bt att clock transport (i + 1) rest).2)) := by
  refine ⟨?_, ?_, rfl, rfl, rfl, rfl, ?_⟩
  · by_cases hec : ec = 0
    · simp [processTurn, send_agent_message, hec]
    · have hit : (send_agent_message ec out err d).1 = "[ERROR] " ++ pyStrip err := by
        simp [send_agent_message, hec]
      simp [processTurn, hit, errorResponse_startsWith, hec]
  · by_cases hec : ec = 0 <;> simp [processTurn, send_agent_message, hec]
  · intro bt att clock transport i rest h
    exact driveTurns_cons_pos bt att clock transport i p rest h

/-- C7 witness: a zero exit code with plain output yields a successful
turn, and the driver then proceeds with the next prompt. -/
theorem C7_turn_success_and_continuation_witness :
    ((processTurn "p" 120 (.completed 0 "hi" "" 1)).success = true ↔
      ((0 : Int) = 0 ∧
        pyStartsWith (send_agent_message 0 "hi" "" 1).1 "[ERROR]" = false)) ∧
    driveTurns 600 120 (fun _ => 0) (fun _ => .completed 0 "hi" "" 1) 0 ["p"] =
      (processTurn "p" (min 120 (Rat.floor ((600 : ℚ) - 0))) (.completed 0 "hi" "" 1) ::
        (driveTurns 600 120 (fun _ => 0) (fun _ => .completed 0 "hi" "" 1) 1 []).1,
       (driveTurns 600 120 (fun _ => 0) (fun _ => .completed 0 "hi" "" 1) 1 []).2) :=
  ⟨(C7_turn_success_and_continuation "p" 120 0 "hi" "" 1 "").1,
   (C7_turn_success_and_continuation "p" 120 0 "hi" "" 1 "").2.2.2.2.2.2
     600 120 (fun _ => 0) (fun _ => .completed 0 "hi" "" 1) 0 [] (by norm_num)⟩

/-! ## C4 — global deadline handling -/

theorem driveTurns_all_ok (bt att : ℤ) (clock : ℕ → ℚ)
    (transport : ℕ → TransportEv) :
    ∀ (prompts : List String) (i0 : ℕ),
      (∀ j, j < prompts.length → 0 < (bt : ℚ) - clock (i0 + j)) →
      driveTurns bt att clock transport i0 prompts =
        ((List.range prompts.length).map (fun j =>
          processTurn (prompts.getD j "")
            (min att (Rat.floor ((bt : ℚ) - clock (i0 + j)))) (transport (i0 + j))),
         "") := by
  intro prompts
  induction prompts with
  | nil => intro i0 _; rfl
  | cons p rest ih =>
    intro i0 h
    have h0 : 0 < (bt : ℚ) - clock i0 := by
      have := h 0 (by simp)
      rwa [Nat.add_zero] at this
    rw [driveTurns_cons_pos bt att clock transport i0 p rest h0,
        ih (i0 + 1) (fun j hj => by
          have e : i0 + 1 + j = i0 + (j + 1) := by omega
          rw [e]
          exact h (j + 1) (by simpa using Nat.succ_lt_succ hj))]
    simp only [List.length_cons, List.range_succ_eq_map, List.map_cons, List.map_map]
    refine Prod.ext ?_ rfl
    show _ :: _ = _ :: _
    rw [Nat.add_zero, List.getD_cons_zero]
    refine congrArg _ ?_
    apply List.map_congr_left
    intro j _
    have harith : i0 + 1 + j = i0 + (j + 1) := by omega
    simp [Function.comp, List.getD_cons_succ, harith]

theorem driveTurns_deadline (bt att : ℤ) (clock : ℕ → ℚ)
    (transport : ℕ → TransportEv) :
    ∀ (prompts : List String) (i0 i : ℕ), i < prompts.length →
      (∀ j, j < i → 0 < (bt : ℚ) - clock (i0 + j)) →
      (bt : ℚ) - clock (i0 + i) ≤ 0 →
      driveTurns bt att clock transport i0 prompts =
        ((List.range i).map (fun j =>
            processTurn (prompts.getD j "")
              (min att (Rat.floor ((bt : ℚ) - clock (i0 + j)))) (transport (i0 + j)))
          ++ [{ prompt := prompts.getD i "",
                error := "Global bootstrap timeout exceeded" }],
         "Global bootstrap timeout exceeded") := by
  intro prompts
  induction prompts with
  | nil => intro i0 i hi; exact absurd hi (by simp)
  | cons p rest ih =>
    intro i0 i hi hpos hdead
    cases i with
    | zero =>
      rw [Nat.add_zero] at hdead
      rw [driveTurns_cons_deadline bt att clock transport i0 p rest hdead]
      simp
    | succ m =>
      have h0 : 0 < (bt : ℚ) - clock i0 := by
        have := hpos 0 (Nat.succ_pos m)
        rwa [Nat.add_zero] at this
      rw [driveTurns_cons_pos bt att clock transport i0 p rest h0,
          ih (i0 + 1) m (by simpa using Nat.lt_of_succ_lt_succ hi)
            (fun j hj => by
              have e : i0 + 1 + j = i0 + (j + 1) := by omega
              rw [e]
              exact hpos (j + 1) (Nat.succ_lt_succ hj))
            (by
              have harith : i0 + 1 + m = i0 + (m + 1) := by omega
              rwa [harith])]
      refine Prod.ext ?_ rfl
      show _ :: _ = _
      rw [List.range_succ_eq_map, List.map_cons, List.map_map, List.cons_append]
      rw [Nat.add_zero, List.getD_cons_zero, List.getD_cons_succ]
      refine congrArg _ ?_
      refine congrArg (· ++ _) ?_
      apply List.map_congr_left
      intro j _
      have harith : i0 + 1 + j = i0 + (j + 1) := by omega
      simp [Function.comp, List.getD_cons_succ, harith]

/-- C4, amended: before each turn the driver computes the remaining time
to the global deadline; at the first turn where it is non-positive, a
synthetic failed turn with message "Global bootstrap timeout exceeded"
(not "deadline exceeded") is recorded (also as the top-level error), the
previously recorded turns are kept and no further turns are issued;
otherwise the turn is sent with timeout
`min(perTurnTimeout, int(remaining))` — `int` truncating the remaining
float — and completion is always evaluated by trigger-file absence,
deadline or not. -/
theorem C4_deadline_truncation (model : String) (bt att : ℤ)
    (prompts : List String) (clock : ℕ → ℚ) (transport : ℕ → TransportEv)
    (td : ℚ) (trig : Bool) :
    (run_bootstrap_conversation model bt att prompts clock transport td trig).bootstrap_completed
        = !trig ∧
    (∀ i, i < prompts.length →
      (∀ j, j < i → 0 < (bt : ℚ) - clock j) →
      (bt : ℚ) - clock i ≤ 0 →
      (run_bootstrap_conversation model bt att prompts clock transport td trig).turns =
        (List.range i).map (fun j =>
          processTurn (prompts.getD j "")
            (min att (Rat.floor ((bt : ℚ) - clock j))) (transport j))
        ++ [{ prompt := prompts.getD i "",
              error := "Global bootstrap timeout exceeded" }] ∧
      (run_bootstrap_conversation model bt att prompts clock transport td trig).error =
        "Global bootstrap timeout exceeded") ∧
    ((∀ j, j < prompts.length → 0 < (bt : ℚ) - clock j) →
      (run_bootstrap_conversation model bt att prompts clock transport td trig).turns =
        (List.range prompts.length).map (fun j =>
          processTurn (prompts.getD j "")
            (min att (Rat.floor ((bt : ℚ) - clock j))) (transport j)) ∧
      (run_bootstrap_conversation model bt att prompts clock transport td trig).error = "") := by
  refine ⟨rfl, ?_, ?_⟩
  · intro i hi hpos hdead
    have hd := driveTurns_deadline bt att clock transport prompts 0 i hi
      (fun j hj => by simpa using hpos j hj) (by simpa using hdead)
    constructor
    · show (driveTurns bt att clock transport 0 prompts).1 = _
      rw [hd]
      simp
    · show (driveTurns bt att clock transport 0 prompts).2 = _
      rw [hd]
  · intro hpos
    have hd := driveTurns_all_ok bt att clock transport prompts 0
      (fun j hj => by simpa using hpos j hj)
    constructor
    · show (driveTurns bt att clock transport 0 prompts).1 = _
      rw [hd]
      simp
    · show (driveTurns bt att clock transport 0 prompts).2 = _
      rw [hd]

/-- C4 witness: with three prompts and a deadline of 600 that has passed
before the third turn, the first two turns are processed normally and
the third is the synthetic deadline turn; completion still reflects
trigger-file absence. -/
theorem C4_deadline_truncation_witness :
    (run_bootstrap_conversation "m" 600 120 ["p1", "p2", "p3"]
        (fun i => if i = 0 then 0 else if i = 1 then 10 else 700)
        (fun _ => .completed 0 "ok" "" 1) 700 false).turns =
      (List.range 2).map (fun j =>
        processTurn (["p1", "p2", "p3"].getD j "")
          (min 120 (Rat.floor ((600 : ℚ) -
            (if j = 0 then 0 else if j = 1 then 10 else 700))))
          (.completed 0 "ok" "" 1))
      ++ [{ prompt := "p3", error := "Global bootstrap timeout exceeded" }] ∧
    (run_bootstrap_conversation "m" 600 120 ["p1", "p2", "p3"]
        (fun i => if i = 0 then 0 else if i = 1 then 10 else 700)
        (fun _ => .completed 0 "ok" "" 1) 700 false).bootstrap_completed = true :=
  ⟨((C4_deadline_truncation "m" 600 120 ["p1", "p2", "p3"]
      (fun i => if i = 0 then 0 else if i = 1 then 10 else 700)
      (fun _ => .completed 0 "ok" "" 1) 700 false).2.1 2 (by decide)
      (by
        intro j hj
        interval_cases j <;> norm_num)
      (by norm_num)).1,
   (C4_deadline_truncation "m" 600 120 ["p1", "p2", "p3"]
      (fun i => if i = 0 then 0 else if i = 1 then 10 else 700)
      (fun _ => .completed 0 "ok" "" 1) 700 false).1⟩

/-- C4 counterexample: the synthetic turn's recorded message is
"Global bootstrap timeout exceeded", not "deadline exceeded"; and the
per-turn timeout is computed from the truncated remaining time — with
1.5 seconds remaining the transport timeout is 1 (observable in the
timeout message), not `min(120, 1.5) = 1.5`. -/
theorem C4_deadline_message_counterexample :
    ((run_bootstrap_conversation "m" 600 120 ["p1", "p2", "p3"]
        (fun i => if i = 0 then 0 else if i = 1 then 10 else 700)
        (fun _ => .completed 0 "ok" "" 1) 700 false).turns.getD 2
          { prompt := "" }).error = "Global bootstrap timeout exceeded" ∧
    ¬ ("Global bootstrap timeout exceeded" = "deadline exceeded") ∧
    ((run_bootstrap_conversation "m" 2 120 ["p"]
        (fun _ => 1/2) (fun _ => .timedOut) 2 true).turns.getD 0
          { prompt := "" }).error = "Turn timed out after 1s" ∧
    min (120 : ℚ) ((2 : ℚ) - 1/2) = 3/2 ∧ ¬ ((3 : ℚ)/2 = 1) := by
  refine ⟨?_, by decide, ?_, by norm_num, by norm_num⟩
  · have hd := driveTurns_deadline 600 120
      (fun i => if i = 0 then 0 else if i = 1 then 10 else 700)
      (fun _ => .completed 0 "ok" "" 1) ["p1", "p2", "p3"] 0 2 (by norm_num)
      (by intro j hj; interval_cases j <;> norm_num) (by norm_num)
    show ((driveTurns 600 120
        (fun i => if i = 0 then 0 else if i = 1 then 10 else 700)
        (fun _ => .completed 0 "ok" "" 1) 0 ["p1", "p2", "p3"]).1.getD 2
          { prompt := "" }).error = _
    rw [hd]
    rw [show List.range 2 = [0, 1] from rfl]
    rfl
  · have htt : min (120 : ℤ) (Rat.floor ((2 : ℚ) - 1/2)) = 1 := by
      have hfl : Rat.floor ((2 : ℚ) - 1/2) = 1 := by
        show ⌊(2 : ℚ) - 1/2⌋ = 1
        norm_num
      rw [hfl]
      norm_num
    have hall := driveTurns_all_ok 2 120 (fun _ => (1 : ℚ)/2) (fun _ => .timedOut)
      ["p"] 0 (by
        intro j hj
        have hj0 : j = 0 := by simp at hj; omega
        subst hj0
        norm_num)
    show ((driveTurns 2 120 (fun _ => (1 : ℚ)/2) (fun _ => .timedOut)
        0 ["p"]).1.getD 0 { prompt := "" }).error = _
    rw [hall]
    show "Turn timed out after " ++
      toString (min (120 : ℤ) (Rat.floor ((2 : ℚ) - 1/2))) ++ "s" = _
    rw [htt]
    rfl

/-! ## C8 — aggregation -/

theorem length_filter_mono {α} (p q : α → Bool) (hpq : ∀ a, p a = true → q a = true) :
    ∀ l : List α, (l.filter p).length ≤ (l.filter q).length := by
  intro l
  induction l with
  | nil => simp
  | cons a l ih =>
    by_cases hp : p a = true
    · rw [List.filter_cons_of_pos hp, List.filter_cons_of_pos (hpq a hp)]
      simpa using ih
    · rw [List.filter_cons_of_neg (by simpa using hp)]
      by_cases hq : q a = true
      · rw [List.filter_cons_of_pos hq]
        exact le_trans ih (by simp)
      · rw [List.filter_cons_of_neg (by simpa using hq)]
        exact ih

/-- Under the at-most-one-check-per-filename condition, the inner
counter of `_check_rate` counts 1 for a run exactly when that run has a
passing check with the given filename. -/
theorem per_run_count (fname : String) (cs : List FileCheck)
    (h : (cs.filter (fun c => c.filename = fname)).length ≤ 1) :
    (cs.filter (fun c => c.filename = fname && c.passed)).length =
      (if cs.any (fun c => c.filename = fname && c.passed) then 1 else 0) := by
  cases hany : cs.any (fun c => c.filename = fname && c.passed) with
  | false =>
    have hnil : cs.filter (fun c => c.filename = fname && c.passed) = [] := by
      rw [List.filter_eq_nil_iff]
      intro a ha
      have := List.any_eq_false.mp hany a ha
      simp [this]
    rw [hnil]
    rfl
  | true =>
    have hle : (cs.filter (fun c => c.filename = fname && c.passed)).length ≤ 1 := by
      refine le_trans (length_filter_mono _ _ ?_ cs) h
      intro c hc
      exact (Bool.and_eq_true .. |>.mp hc).1
    have hge : 1 ≤ (cs.filter (fun c => c.filename = fname && c.passed)).length := by
      obtain ⟨c, hc, hpc⟩ := List.any_eq_true.mp hany
      have hmem : c ∈ cs.filter (fun c => c.filename = fname && c.passed) :=
        List.mem_filter.mpr ⟨hc, hpc⟩
      exact List.length_pos_of_mem hmem
    simp only [if_pos trivial]
    omega

theorem sum_counts_eq_countP (fname : String) :
    ∀ (runs : List (BootstrapResult × VerificationResult)),
      (∀ r ∈ runs, (r.2.checks.filter (fun c => c.filename = fname)).length ≤ 1) →
      (runs.map (fun r =>
        (r.2.checks.filter (fun c => c.filename = fname && c.passed)).length)).sum =
        (runs.filter (fun r =>
          r.2.checks.any (fun c => c.filename = fname && c.passed))).length := by
  intro runs
  induction runs with
  | nil => intro _; rfl
  | cons r rs ih =>
    intro h
    rw [List.map_cons, List.sum_cons, per_run_count fname r.2.checks (h r (by simp)),
        ih (fun x hx => h x (by simp [hx]))]
    cases hany : r.2.checks.any (fun c => c.filename = fname && c.passed) with
    | true =>
      rw [if_pos rfl, List.filter_cons_of_pos (by simpa using hany)]
      simp [Nat.add_comm]
    | false =>
      rw [if_neg (by simp), List.filter_cons_of_neg (by simpa using hany)]
      simp

/-- C8: aggregating zero runs returns a zeroed result with run count 0
(distinguishable from a legitimate all-zero score) and no error;
aggregating `n ≥ 1` runs yields the arithmetic mean of scores and
durations, per-check pass rates equal to (count of runs where that
specific check passed)/n — under the at-most-one-check-per-filename
condition that `verify_bootstrap` guarantees — and perfect-rate equal to
(count of runs where all checks passed)/n, under the corresponding
coherence of the stored all-passed flag. -/
theorem C8_aggregate_runs (m pv : String) (pps : Option (List String))
    (runs : List (BootstrapResult × VerificationResult)) :
    ((aggregate_runs m [] pv pps).num_runs = 0 ∧
     (aggregate_runs m [] pv pps).avg_score = 0 ∧
     (aggregate_runs m [] pv pps).avg_duration_s = 0) ∧
    (runs ≠ [] →
      (aggregate_runs m runs pv pps).num_runs = runs.length ∧
      (aggregate_runs m runs pv pps).avg_score =
        (runs.map (fun r => r.2.score)).sum / (runs.length : ℚ) ∧
      (aggregate_runs m runs pv pps).avg_duration_s =
        (runs.map (fun r => r.1.total_duration_s)).sum / (runs.length : ℚ) ∧
      (aggregate_runs m runs pv pps).bootstrap_md_rate = check_rate runs "BOOTSTRAP.md" ∧
      (aggregate_runs m runs pv pps).identity_rate = check_rate runs "IDENTITY.md" ∧
      (aggregate_runs m runs pv pps).user_rate = check_rate runs "USER.md" ∧
      (aggregate_runs m runs pv pps).soul_rate = check_rate runs "SOUL.md") ∧
    (∀ fname,
      (∀ r ∈ runs, (r.2.checks.filter (fun c => c.filename = fname)).length ≤ 1) →
      check_rate runs fname =
        ((runs.filter (fun r =>
          r.2.checks.any (fun c => c.filename = fname && c.passed))).length : ℚ) /
            (runs.length : ℚ)) ∧
    (runs ≠ [] →
      (∀ r ∈ runs, r.2.all_passed = r.2.checks.all (fun c => c.passed)) →
      (aggregate_runs m runs pv pps).perfect_rate =
        ((runs.filter (fun r => r.2.checks.all (fun c => c.passed))).length : ℚ) /
          (runs.length : ℚ)) := by
  refine ⟨⟨rfl, rfl, rfl⟩, ?_, ?_, ?_⟩
  · intro h
    have hne : ¬ (runs.length = 0) := by simpa [List.length_eq_zero] using h
    refine ⟨?_, ?_, ?_, ?_, ?_, ?_, ?_⟩ <;> simp [aggregate_runs, hne]
  · intro fname hmult
    unfold check_rate
    rw [sum_counts_eq_countP fname runs hmult]
  · intro h hcoh
    have hne : ¬ (runs.length = 0) := by simpa [List.length_eq_zero] using h
    have hfe : runs.filter (fun r => r.2.all_passed) =
        runs.filter (fun r => r.2.checks.all (fun c => c.passed)) := by
      apply List.filter_congr
      intro r hr
      rw [hcoh r hr]
    simp [aggregate_runs, hne, hfe]

/-- A two-run fixture for the C8 witness: one run passing its single
BOOTSTRAP check, one failing it. -/
def c8Run1 : BootstrapResult × VerificationResult :=
  ({ model_name := "m", total_duration_s := 2 },
   { model_name := "m", score := 1,
     checks := [{ filename := "BOOTSTRAP.md", passed := true }] })

def c8Run2 : BootstrapResult × VerificationResult :=
  ({ model_name := "m", total_duration_s := 4 },
   { model_name := "m", score := 0,
     checks := [{ filename := "BOOTSTRAP.md", passed := false }] })

/-- C8 witness: aggregating the two-run fixture yields the mean score
and a BOOTSTRAP pass rate of (1 run passed)/2. -/
theorem C8_aggregate_runs_witness :
    (aggregate_runs "m" [c8Run1, c8Run2] "default" none).avg_score =
      ([c8Run1, c8Run2].map (fun r => r.2.score)).sum /
        (([c8Run1, c8Run2].length : ℕ) : ℚ) ∧
    check_rate [c8Run1, c8Run2] "BOOTSTRAP.md" =
      (([c8Run1, c8Run2].filter (fun r =>
        r.2.checks.any (fun c => c.filename = "BOOTSTRAP.md" && c.passed))).length : ℚ) /
          (([c8Run1, c8Run2].length : ℕ) : ℚ) :=
  ⟨((C8_aggregate_runs "m" "default" none [c8Run1, c8Run2]).2.1 (by decide)).2.1,
   (C8_aggregate_runs "m" "default" none [c8Run1, c8Run2]).2.2.1 "BOOTSTRAP.md"
     (by decide)⟩

end OpenClawBench
